import Mathlib

/-
  Shallow embedding of the Crypto-advisor-bot scoring and decision engine
  (crypto_analyzer.py, sustainability_scorer.py, rules_engine.py).

  Modelling conventions:
  * Python floats are modelled as exact rationals; np.std keeps its square
    root and therefore lives in the reals.
  * A price series is the list of [timestamp, price] pairs of the provider
    response, modelled as List (Rat x Rat); only the second component is read.
  * The external market-data provider (CryptoAnalyzer network calls) is an
    out-of-scope collaborator: wherever a method consumes its response, the
    already-fetched response appears as an explicit argument.
  * Python str.lower() / round() are reimplemented below (pyLower, pyRound)
    so that every definition stays computable and kernel-reducible.
-/

namespace CryptoAdvisor

/-- Python round() to the nearest integer with ties to even. -/
def pyRound (q : ℚ) : ℤ :=
  let f := ⌊q⌋
  let r := q - f
  if r < 1/2 then f
  else if 1/2 < r then f + 1
  else if f % 2 = 0 then f else f + 1

/-- Python round(x, 1). -/
def round1 (q : ℚ) : ℚ := (pyRound (q * 10) : ℚ) / 10

/-- ASCII lower-casing of one character, as Python str.lower() acts on the
    ASCII strings of this code base. -/
def lowerChar (c : Char) : Char :=
  let n := c.toNat
  if 65 ≤ n ∧ n ≤ 90 then Char.ofNat (n + 32) else c

/-- ASCII upper-casing of one character. -/
def upperChar (c : Char) : Char :=
  let n := c.toNat
  if 97 ≤ n ∧ n ≤ 122 then Char.ofNat (n - 32) else c

/-- Python str.lower() on the ASCII strings used by the engine. -/
def pyLower (s : String) : String := String.mk (s.toList.map lowerChar)

/-- Python str.title() restricted to the single lowercase words that occur as
    alias names: first character uppercased, the rest lowercased. -/
def pyTitle (s : String) : String :=
  match s.toList with
  | [] => s
  | c :: cs => String.mk (upperChar c :: cs.map lowerChar)

/-- Bool test: is the first list a prefix of the second. -/
def isPrefixL : List Char → List Char → Bool
  | [], _ => true
  | _ :: _, [] => false
  | a :: as, b :: bs => a == b && isPrefixL as bs

/-- Bool test: does pat occur as a contiguous run inside the second list. -/
def isInfixL (pat : List Char) : List Char → Bool
  | [] => pat.isEmpty
  | c :: rest => isPrefixL pat (c :: rest) || isInfixL pat rest

/-- Python substring containment, pat in s. -/
def strContains (s pat : String) : Bool := isInfixL pat.toList s.toList

/-! ## crypto_analyzer.py - technical indicators -/

/-- np.mean of a rational list (division by zero never reached by the source). -/
def mean (l : List ℚ) : ℚ := l.sum / (l.length : ℚ)

/-- Population variance, the square of np.std. -/
def popVar (l : List ℚ) : ℚ := mean (l.map (fun x => (x - mean l) ^ 2))

/-- The loop of CryptoAnalyzer.calculate_volatility (lines 185-189):
    period-over-period returns, skipping any step whose previous price is
    exactly 0. -/
def priceReturns (prices : List (ℚ × ℚ)) : List ℚ :=
  ((prices.zip prices.tail).filter (fun pq => pq.1.2 != 0)).map
    (fun pq => (pq.2.2 - pq.1.2) / pq.1.2)

/-- CryptoAnalyzer.calculate_volatility, lines 180-194:
    np.std(price_changes) * 100 with the two early-exit zero branches. -/
noncomputable def calculate_volatility (prices : List (ℚ × ℚ)) : ℝ :=
  if prices.length < 2 then 0
  else
    let price_changes := priceReturns prices
    if price_changes = [] then 0
    else Real.sqrt ((popVar price_changes : ℚ) : ℝ) * 100

/-- The delta loop of CryptoAnalyzer.calculate_rsi (lines 201-213):
    per-step deltas prices[i][1] - prices[i-1][1] over the whole series. -/
def priceDeltas (prices : List (ℚ × ℚ)) : List ℚ :=
  let price_values := prices.map Prod.snd
  List.zipWith (fun a b => b - a) price_values price_values.tail

/-- Gains list of calculate_rsi: positive deltas kept, others replaced by 0. -/
def rsiGains (changes : List ℚ) : List ℚ :=
  changes.map (fun c => if 0 < c then c else 0)

/-- Losses list of calculate_rsi: absolute values of non-positive deltas,
    positive deltas replaced by 0. -/
def rsiLosses (changes : List ℚ) : List ℚ :=
  changes.map (fun c => if 0 < c then 0 else |c|)

/-- The last n entries of a list (Python l[-n:] for n at most the length). -/
def lastN (l : List ℚ) (n : Nat) : List ℚ := l.drop (l.length - n)

/-- CryptoAnalyzer.calculate_rsi, lines 196-227. -/
def calculate_rsi (prices : List (ℚ × ℚ)) (period : Nat := 14) : ℚ :=
  if prices.length < period + 1 then 50
  else
    let changes := priceDeltas prices
    let gains := rsiGains changes
    let losses := rsiLosses changes
    if gains.length < period then 50
    else
      let avg_gain := mean (lastN gains period)
      let avg_loss := mean (lastN losses period)
      if avg_loss = 0 then 100
      else 100 - 100 / (1 + avg_gain / avg_loss)

/-- spec.md section 4.1 wording of rsi: neutral 50 below period+1 points,
    averages of the last period gains and losses, 100 on zero average loss,
    otherwise 100 - 100/(1+RS). -/
def rsiSpec (prices : List (ℚ × ℚ)) (period : Nat) : ℚ :=
  if prices.length < period + 1 then 50
  else
    let changes := priceDeltas prices
    let avg_gain := mean (lastN (rsiGains changes) period)
    let avg_loss := mean (lastN (rsiLosses changes) period)
    if avg_loss = 0 then 100
    else 100 - 100 / (1 + avg_gain / avg_loss)

/-- CryptoAnalyzer.get_price_momentum, lines 229-248.  The provider call
    get_historical_data is abstracted as the already-fetched optional price
    series; none collapses every no-data branch of lines 233-238. -/
def get_price_momentum (fetched : Option (List (ℚ × ℚ))) : ℚ :=
  match fetched with
  | none => 0
  | some prices =>
    if prices.length < 2 then 0
    else
      let start_price := (prices.getD 0 (0, 0)).2
      let end_price := (prices.getLastD (0, 0)).2
      if start_price = 0 then 0
      else (end_price - start_price) / start_price * 100

/-! ## sustainability_scorer.py -/

/-- One static sustainability profile (dict values of crypto_profiles). -/
structure Profile where
  consensus : String
  energy_intensity : String
  governance_model : String
  environmental_initiatives : String
  innovation_focus : String
  transparency : String
  carbon_neutral_goal : Bool
  renewable_energy_usage : String
deriving DecidableEq

/-- self.energy_scores with the .get default 60 used at its call site. -/
def energy_scores (k : String) : ℚ :=
  if k = "very_low" then 95
  else if k = "low" then 80
  else if k = "medium" then 60
  else if k = "high" then 30
  else if k = "very_high" then 10
  else 60

/-- self.governance_scores with the .get default 70 used at its call site. -/
def governance_scores (k : String) : ℚ :=
  if k = "democratic" then 90
  else if k = "decentralized" then 80
  else if k = "developer_led" then 70
  else if k = "foundation_led" then 60
  else if k = "community" then 75
  else 70

/-- self.initiative_scores with the .get default 60 used at its call sites. -/
def initiative_scores (k : String) : ℚ :=
  if k = "very_strong" then 95
  else if k = "strong" then 80
  else if k = "medium" then 60
  else if k = "limited" then 30
  else if k = "none" then 10
  else 60

/-- self.transparency_scores with the .get default 60 used at its call sites. -/
def transparency_scores (k : String) : ℚ :=
  if k = "very_high" then 95
  else if k = "high" then 80
  else if k = "medium" then 60
  else if k = "low" then 30
  else if k = "very_low" then 10
  else 60

/-- self.renewable_energy_scores with the .get default 60 used at its call site. -/
def renewable_energy_scores (k : String) : ℚ :=
  if k = "very_high" then 95
  else if k = "high" then 80
  else if k = "medium" then 60
  else if k = "low" then 30
  else if k = "very_low" then 10
  else 60

/-- The local innovation_base_scores dict with its .get default 60. -/
def innovation_base_scores (k : String) : ℚ :=
  if k = "sustainability" then 90
  else if k = "smart_contracts" then 85
  else if k = "interoperability" then 80
  else if k = "scaling" then 80
  else if k = "performance" then 75
  else if k = "oracles" then 75
  else if k = "store_of_value" then 70
  else if k = "payments" then 65
  else if k = "privacy" then 75
  else if k = "meme" then 30
  else if k = "general" then 60
  else 60

/-- SustainabilityScorer._calculate_energy_efficiency_score, lines 197-221. -/
def calculate_energy_efficiency_score (p : Profile) : ℚ :=
  let base_score := energy_scores p.energy_intensity
  let renewable_bonus := renewable_energy_scores p.renewable_energy_usage * 0.2
  let carbon_bonus : ℚ := if p.carbon_neutral_goal then 10 else 0
  let consensus_bonus : ℚ :=
    if p.consensus = "proof_of_stake" ∨ p.consensus = "nominated_proof_of_stake" ∨
        p.consensus = "pure_proof_of_stake" then 15
    else if p.consensus = "proof_of_history" then 10
    else if p.consensus = "proof_of_work" then -20
    else 0
  min 100 (max 0 (base_score + renewable_bonus + carbon_bonus + consensus_bonus))

/-- SustainabilityScorer._calculate_governance_score, lines 223-236. -/
def calculate_governance_score (p : Profile) : ℚ :=
  let base_score := governance_scores p.governance_model
  let transparency_bonus := (transparency_scores p.transparency - 60) * 0.3
  let initiative_bonus := (initiative_scores p.environmental_initiatives - 60) * 0.2
  min 100 (max 0 (base_score + transparency_bonus + initiative_bonus))

/-- SustainabilityScorer._calculate_innovation_score, lines 238-269. -/
def calculate_innovation_score (p : Profile) : ℚ :=
  let base_score := innovation_base_scores p.innovation_focus
  let environmental_bonus : ℚ :=
    if p.innovation_focus = "sustainability" ∨ p.innovation_focus = "scaling" then 10 else 0
  let carbon_bonus : ℚ := if p.carbon_neutral_goal then 5 else 0
  min 100 (max 0 (base_score + environmental_bonus + carbon_bonus))

/-- SustainabilityScorer._calculate_transparency_score, lines 271-290. -/
def calculate_transparency_score (p : Profile) : ℚ :=
  let base_score := transparency_scores p.transparency
  let initiative_bonus : ℚ :=
    if p.environmental_initiatives = "strong" ∨ p.environmental_initiatives = "very_strong"
    then 10 else 0
  let governance_bonus : ℚ := if p.governance_model = "democratic" then 5 else 0
  min 100 (max 0 (base_score + initiative_bonus + governance_bonus))

def bitcoin_profile : Profile :=
  { consensus := "proof_of_work", energy_intensity := "very_high",
    governance_model := "decentralized", environmental_initiatives := "limited",
    innovation_focus := "store_of_value", transparency := "high",
    carbon_neutral_goal := false, renewable_energy_usage := "medium" }

def ethereum_profile : Profile :=
  { consensus := "proof_of_stake", energy_intensity := "low",
    governance_model := "developer_led", environmental_initiatives := "strong",
    innovation_focus := "smart_contracts", transparency := "high",
    carbon_neutral_goal := true, renewable_energy_usage := "high" }

def cardano_profile : Profile :=
  { consensus := "proof_of_stake", energy_intensity := "very_low",
    governance_model := "democratic", environmental_initiatives := "strong",
    innovation_focus := "sustainability", transparency := "very_high",
    carbon_neutral_goal := true, renewable_energy_usage := "very_high" }

def polkadot_profile : Profile :=
  { consensus := "nominated_proof_of_stake", energy_intensity := "very_low",
    governance_model := "democratic", environmental_initiatives := "strong",
    innovation_focus := "interoperability", transparency := "high",
    carbon_neutral_goal := true, renewable_energy_usage := "high" }

def solana_profile : Profile :=
  { consensus := "proof_of_history", energy_intensity := "low",
    governance_model := "foundation_led", environmental_initiatives := "medium",
    innovation_focus := "performance", transparency := "medium",
    carbon_neutral_goal := true, renewable_energy_usage := "medium" }

def chainlink_profile : Profile :=
  { consensus := "proof_of_stake", energy_intensity := "low",
    governance_model := "decentralized", environmental_initiatives := "medium",
    innovation_focus := "oracles", transparency := "medium",
    carbon_neutral_goal := false, renewable_energy_usage := "medium" }

def litecoin_profile : Profile :=
  { consensus := "proof_of_work", energy_intensity := "high",
    governance_model := "decentralized", environmental_initiatives := "limited",
    innovation_focus := "payments", transparency := "medium",
    carbon_neutral_goal := false, renewable_energy_usage := "medium" }

def dogecoin_profile : Profile :=
  { consensus := "proof_of_work", energy_intensity := "high",
    governance_model := "community", environmental_initiatives := "limited",
    innovation_focus := "meme", transparency := "medium",
    carbon_neutral_goal := false, renewable_energy_usage := "low" }

def algorand_profile : Profile :=
  { consensus := "pure_proof_of_stake", energy_intensity := "very_low",
    governance_model := "democratic", environmental_initiatives := "very_strong",
    innovation_focus := "sustainability", transparency := "very_high",
    carbon_neutral_goal := true, renewable_energy_usage := "very_high" }

def matic_network_profile : Profile :=
  { consensus := "proof_of_stake", energy_intensity := "low",
    governance_model := "democratic", environmental_initiatives := "strong",
    innovation_focus := "scaling", transparency := "high",
    carbon_neutral_goal := true, renewable_energy_usage := "high" }

/-- self.crypto_profiles, lines 15-116 (10 built-in profile ids). -/
def crypto_profiles : List (String × Profile) :=
  [("bitcoin", bitcoin_profile), ("ethereum", ethereum_profile),
   ("cardano", cardano_profile), ("polkadot", polkadot_profile),
   ("solana", solana_profile), ("chainlink", chainlink_profile),
   ("litecoin", litecoin_profile), ("dogecoin", dogecoin_profile),
   ("algorand", algorand_profile), ("matic-network", matic_network_profile)]

/-- SustainabilityScorer._get_default_profile, lines 292-303. -/
def default_profile : Profile :=
  { consensus := "unknown", energy_intensity := "medium",
    governance_model := "decentralized", environmental_initiatives := "limited",
    innovation_focus := "general", transparency := "medium",
    carbon_neutral_goal := false, renewable_energy_usage := "medium" }

/-- self.crypto_profiles.get(crypto_id.lower(), default), line 162. -/
def getProfile (crypto_id : String) : Profile :=
  (crypto_profiles.lookup (pyLower crypto_id)).getD default_profile

/-- The numeric payload of the dict returned by calculate_sustainability_score
    (display-only fields crypto_id, name, key_features, carbon_neutral_goal
    and consensus_mechanism are not modelled). -/
structure SustainabilityScore where
  total_score : ℚ
  energy_efficiency : ℚ
  governance : ℚ
  innovation : ℚ
  transparency : ℚ
deriving DecidableEq

/-- SustainabilityScorer.calculate_sustainability_score, lines 159-195. -/
def calculate_sustainability_score (crypto_id : String) : SustainabilityScore :=
  let profile := getProfile crypto_id
  let energy_score := calculate_energy_efficiency_score profile
  let governance_score := calculate_governance_score profile
  let innovation_score := calculate_innovation_score profile
  let transparency_score := calculate_transparency_score profile
  let total_score := energy_score * 0.40 + governance_score * 0.30 +
    innovation_score * 0.20 + transparency_score * 0.10
  { total_score := round1 total_score
    energy_efficiency := round1 energy_score
    governance := round1 governance_score
    innovation := round1 innovation_score
    transparency := round1 transparency_score }

/-! ## rules_engine.py -/

inductive RiskTier
  | Conservative
  | Moderate
  | Aggressive
deriving DecidableEq

/-- base_allocation dict of _calculate_position_size, lines 382-386. -/
def base_allocation : RiskTier → ℚ
  | .Conservative => 5
  | .Moderate => 10
  | .Aggressive => 20

/-- max_allocation dict of _calculate_position_size, lines 413-417. -/
def max_allocation : RiskTier → ℚ
  | .Conservative => 10
  | .Moderate => 20
  | .Aggressive => 30

/-- RulesEngine._calculate_position_size, lines 380-419. -/
def calculate_position_size (volatility : ℚ) (market_cap_rank : ℤ)
    (sustainability_score : ℚ) (risk_tolerance : RiskTier) : ℚ :=
  let allocation0 := base_allocation risk_tolerance
  let allocation1 :=
    if volatility > 40 then allocation0 * 0.5
    else if volatility > 25 then allocation0 * 0.7
    else if volatility < 15 then allocation0 * 1.2
    else allocation0
  let allocation2 :=
    if market_cap_rank ≤ 5 then allocation1 * 1.3
    else if market_cap_rank ≤ 20 then allocation1 * 1.1
    else if market_cap_rank > 50 then allocation1 * 0.7
    else allocation1
  let allocation3 :=
    if sustainability_score ≥ 80 then allocation2 * 1.1
    else if sustainability_score < 40 then allocation2 * 0.9
    else allocation2
  min allocation3 (max_allocation risk_tolerance)

/-- Volatility multiplier as spelled out by the spec and claim C2. -/
def volatility_factor (v : ℚ) : ℚ :=
  if v > 40 then 0.5 else if v > 25 then 0.7 else if v < 15 then 1.2 else 1

/-- Market-cap-rank multiplier as spelled out by the spec and claim C2. -/
def rank_factor (r : ℤ) : ℚ :=
  if r ≤ 5 then 1.3 else if r ≤ 20 then 1.1 else if r > 50 then 0.7 else 1

/-- Sustainability multiplier as spelled out by the spec and claim C2. -/
def sustainability_factor (s : ℚ) : ℚ :=
  if s ≥ 80 then 1.1 else if s < 40 then 0.9 else 1

/-- Position size in the factored form of the spec: tier base times the three
    multipliers in order, capped at the tier maximum. -/
def position_size_spec (v : ℚ) (r : ℤ) (s : ℚ) (tier : RiskTier) : ℚ :=
  min (base_allocation tier * volatility_factor v * rank_factor r * sustainability_factor s)
    (max_allocation tier)

/-- One provider market record, reduced to the only field that
    generate_portfolio_recommendation reads. -/
structure MarketRecord where
  symbol : String
deriving DecidableEq

/-- One entry of the returned portfolio list. -/
structure AllocEntry where
  name : String
  allocation : ℚ
  reasoning : String
deriving DecidableEq

/-- sum(crypto[allocation] for crypto in portfolio), line 516. -/
def totalAlloc (entries : List AllocEntry) : ℚ := (entries.map (·.allocation)).sum

/-- max_crypto_allocation dict, lines 517-521. -/
def max_crypto_allocation : RiskTier → ℚ
  | .Conservative => 70
  | .Moderate => 80
  | .Aggressive => 90

/-- growth_cryptos literals, lines 495-499 (symbol keys dropped: the dicts
    enter the portfolio list through their common name / allocation /
    reasoning fields). -/
def growth_cryptos : List AllocEntry :=
  [{ name := "Cardano (ADA)", allocation := 10,
     reasoning := "Sustainable PoS blockchain with academic approach" },
   { name := "Polkadot (DOT)", allocation := 8,
     reasoning := "Interoperability-focused with parachain technology" },
   { name := "Solana (SOL)", allocation := 7,
     reasoning := "High-performance blockchain for DeFi and NFTs" }]

/-- speculative_cryptos literals, lines 507-510. -/
def speculative_cryptos : List AllocEntry :=
  [{ name := "Chainlink (LINK)", allocation := 5,
     reasoning := "Leading oracle network for smart contracts" },
   { name := "Polygon (MATIC)", allocation := 5,
     reasoning := "Ethereum scaling solution with growing adoption" }]

/-- Lines 471-513 of generate_portfolio_recommendation: the portfolio list
    as assembled before the cap check. -/
def build_portfolio_list (risk_tolerance : RiskTier) (top_cryptos : List MarketRecord) :
    List AllocEntry :=
  let core :=
    if risk_tolerance = .Conservative ∨ risk_tolerance = .Moderate then
      (match top_cryptos.find? (fun c => pyLower c.symbol == "btc") with
       | some _ =>
         [{ name := "Bitcoin (BTC)",
            allocation := if risk_tolerance = .Conservative then 40 else 30,
            reasoning := "Digital gold, most established cryptocurrency with institutional adoption" }]
       | none => []) ++
      (match top_cryptos.find? (fun c => pyLower c.symbol == "eth") with
       | some _ =>
         [{ name := "Ethereum (ETH)",
            allocation := if risk_tolerance = .Conservative then 30 else 25,
            reasoning := "Leading smart contract platform with strong developer ecosystem" }]
       | none => [])
    else []
  let growth :=
    if risk_tolerance ≠ .Conservative then
      growth_cryptos.filter
        (fun g => decide (risk_tolerance = RiskTier.Aggressive ∨ g.allocation ≤ 10))
    else []
  let speculative := if risk_tolerance = .Aggressive then speculative_cryptos else []
  core ++ growth ++ speculative

/-- Lines 515-527: proportional scale-down, each entry rounded to the nearest
    integer percent, applied only when the total exceeds the tier cap. -/
def applyCap (risk_tolerance : RiskTier) (entries : List AllocEntry) : List AllocEntry :=
  let total_allocation := totalAlloc entries
  if total_allocation > max_crypto_allocation risk_tolerance then
    let scale_factor := max_crypto_allocation risk_tolerance / total_allocation
    entries.map (fun e => { e with allocation := (pyRound (e.allocation * scale_factor) : ℚ) })
  else entries

/-- RulesEngine.generate_portfolio_recommendation, lines 459-529.  The
    provider call get_top_cryptocurrencies(20) is abstracted as the
    top_cryptos argument; the try/except wrapper cannot fire in this pure
    model, and portfolio_size / time_horizon are never read by the body. -/
def generate_portfolio_recommendation (top_cryptos : List MarketRecord)
    (risk_tolerance : RiskTier) : List AllocEntry :=
  if top_cryptos = [] then []
  else applyCap risk_tolerance (build_portfolio_list risk_tolerance top_cryptos)

/-- crypto_mappings of _extract_crypto_names / _get_crypto_id,
    lines 186-197 and 210-221 (the two dicts are identical). -/
def crypto_mappings : List (String × String) :=
  [("bitcoin", "bitcoin"), ("btc", "bitcoin"),
   ("ethereum", "ethereum"), ("eth", "ethereum"),
   ("cardano", "cardano"), ("ada", "cardano"),
   ("polkadot", "polkadot"), ("dot", "polkadot"),
   ("solana", "solana"), ("sol", "solana"),
   ("chainlink", "chainlink"), ("link", "chainlink"),
   ("litecoin", "litecoin"), ("ltc", "litecoin"),
   ("dogecoin", "dogecoin"), ("doge", "dogecoin"),
   ("polygon", "matic-network"), ("matic", "matic-network"),
   ("avalanche", "avalanche-2"), ("avax", "avalanche-2")]

/-- RulesEngine._extract_crypto_names, lines 183-206: aliases found in the
    lowered query by substring containment, in table order.  The source pipes
    the result through list(set(..)) whose order Python leaves unspecified;
    the alias keys are pairwise distinct, so that step is a permutation of
    this list and is modelled as the identity. -/
def extract_crypto_names (query : String) : List String :=
  (crypto_mappings.filter (fun p => strContains (pyLower query) p.1)).map Prod.fst

/-- RulesEngine._get_crypto_id, lines 208-223. -/
def get_crypto_id (crypto_name : String) : Option String :=
  crypto_mappings.lookup (pyLower crypto_name)

/-- Usage-hint message of _handle_investment_query, line 77. -/
def please_specify_msg : String :=
  "Please specify which cryptocurrency you\x27re asking about. For example: \x27Should I invest in Bitcoin?\x27"

/-- Not-found message of _handle_investment_query, line 83. -/
def could_not_find_msg (crypto_name : String) : String :=
  "I couldn\x27t find information about " ++ crypto_name ++
    ". Please check the spelling or try a different cryptocurrency."

/-- RulesEngine._handle_investment_query, lines 72-88.  The call to
    _get_investment_recommendation (market fetch plus formatting, wrapped in
    try/except) is abstracted as the investment_analysis argument. -/
def handle_investment_query (investment_analysis : String → String) (query : String) : String :=
  match extract_crypto_names query with
  | [] => please_specify_msg
  | crypto_name :: _ =>
    match get_crypto_id crypto_name with
    | none => could_not_find_msg crypto_name
    | some crypto_id =>
      "## 💰 Investment Analysis for " ++ pyTitle crypto_name ++ "\n\n" ++
        investment_analysis crypto_id

def comparison_keywords : List String := ["compare", "vs", "versus", "between"]

def investment_keywords : List String := ["should i invest", "buy", "recommend"]

def portfolio_keywords : List String := ["portfolio", "allocation", "diversify"]

def sustainability_keywords : List String := ["sustainability", "environment", "green", "energy"]

def price_keywords : List String := ["price", "trend", "analysis", "technical"]

/-- any(word in query_lower for word in words). -/
def containsAny (query_lower : String) (words : List String) : Bool :=
  words.any (fun w => strContains query_lower w)

/-- The six intent categories of the process_query dispatch. -/
inductive Intent
  | comparison
  | investment
  | portfolioAlloc
  | sustainability
  | priceAnalysis
  | general
deriving DecidableEq

/-- The dispatch of RulesEngine.process_query, lines 33-49, as a first-match
    classifier over the keyword sets. -/
def intentOf (query : String) : Intent :=
  let query_lower := pyLower query
  if containsAny query_lower comparison_keywords then .comparison
  else if containsAny query_lower investment_keywords then .investment
  else if containsAny query_lower portfolio_keywords then .portfolioAlloc
  else if containsAny query_lower sustainability_keywords then .sustainability
  else if containsAny query_lower price_keywords then .priceAnalysis
  else .general

/-- RulesEngine.process_query, lines 33-49.  The five handlers other than the
    investment one matter to the claims only through the text they return, so
    each is passed in as a function of the query; the investment branch calls
    the modelled handle_investment_query. -/
def process_query (handle_comparison_query handle_portfolio_query handle_sustainability_query
    handle_price_analysis_query handle_general_query : String → String)
    (investment_analysis : String → String) (query : String) : String :=
  let query_lower := pyLower query
  if containsAny query_lower comparison_keywords then handle_comparison_query query
  else if containsAny query_lower investment_keywords then
    handle_investment_query investment_analysis query
  else if containsAny query_lower portfolio_keywords then handle_portfolio_query query
  else if containsAny query_lower sustainability_keywords then handle_sustainability_query query
  else if containsAny query_lower price_keywords then handle_price_analysis_query query
  else handle_general_query query

/-- The largest pre-cap totals that build_portfolio_list can reach, per tier
    (claim C10): Conservative 40+30, Moderate 30+25+10+8+7, Aggressive
    10+8+7+5+5. -/
def attainable_total : RiskTier → ℚ
  | .Conservative => 70
  | .Moderate => 80
  | .Aggressive => 35

/-- A fifteen-point constant price series (each price equal to, hence at most,
    its predecessor). -/
def const_series : List (ℚ × ℚ) :=
  [(0, 5), (1, 5), (2, 5), (3, 5), (4, 5), (5, 5), (6, 5), (7, 5),
   (8, 5), (9, 5), (10, 5), (11, 5), (12, 5), (13, 5), (14, 5)]

/-- A fifteen-point strictly rising price series (every delta is a gain). -/
def rising_series : List (ℚ × ℚ) :=
  [(0, 1), (1, 2), (2, 3), (3, 4), (4, 5), (5, 6), (6, 7), (7, 8),
   (8, 9), (9, 10), (10, 11), (11, 12), (12, 13), (13, 14), (14, 15)]

/-- A fifteen-point strictly falling price series. -/
def falling_series : List (ℚ × ℚ) :=
  [(0, 15), (1, 14), (2, 13), (3, 12), (4, 11), (5, 10), (6, 9), (7, 8),
   (8, 7), (9, 6), (10, 5), (11, 4), (12, 3), (13, 2), (14, 1)]

/-! ## Helper lemmas -/

theorem pyRound_nonneg {q : ℚ} (h : 0 ≤ q) : 0 ≤ pyRound q := by
  have h0 : (0 : ℤ) ≤ ⌊q⌋ := Int.floor_nonneg.mpr h
  simp only [pyRound]
  split_ifs <;> omega

theorem pyRound_le {q : ℚ} {n : ℤ} (h : q ≤ (n : ℚ)) : pyRound q ≤ n := by
  have hf : ⌊q⌋ ≤ n := by
    have h1 : ⌊q⌋ ≤ ⌊(n : ℚ)⌋ := Int.floor_le_floor h
    simpa using h1
  have hq : (⌊q⌋ : ℚ) ≤ q := Int.floor_le q
  simp only [pyRound]
  split_ifs with h1 h2 h3
  · exact hf
  · have hlt : (⌊q⌋ : ℚ) < (n : ℚ) := by linarith
    have : ⌊q⌋ < n := by exact_mod_cast hlt
    omega
  · exact hf
  · have hr : q - ⌊q⌋ = 1/2 := le_antisymm (not_lt.1 h2) (not_lt.1 h1)
    have hlt : (⌊q⌋ : ℚ) < (n : ℚ) := by linarith
    have : ⌊q⌋ < n := by exact_mod_cast hlt
    omega

theorem round1_nonneg {q : ℚ} (h : 0 ≤ q) : 0 ≤ round1 q := by
  unfold round1
  have h1 : (0 : ℤ) ≤ pyRound (q * 10) := pyRound_nonneg (by linarith)
  have h2 : (0 : ℚ) ≤ (pyRound (q * 10) : ℚ) := by exact_mod_cast h1
  linarith

theorem round1_le_100 {q : ℚ} (h : q ≤ 100) : round1 q ≤ 100 := by
  unfold round1
  have h1 : pyRound (q * 10) ≤ (1000 : ℤ) := pyRound_le (by push_cast; linarith)
  have h2 : (pyRound (q * 10) : ℚ) ≤ (1000 : ℚ) := by exact_mod_cast h1
  rw [div_le_iff₀ (by norm_num)]
  linarith

theorem clamp01 (x : ℚ) : 0 ≤ min 100 (max 0 x) ∧ min 100 (max 0 x) ≤ 100 :=
  ⟨le_min (by norm_num) (le_max_left 0 x), min_le_left _ _⟩

theorem energy_score_bounds (p : Profile) :
    0 ≤ calculate_energy_efficiency_score p ∧ calculate_energy_efficiency_score p ≤ 100 := by
  unfold calculate_energy_efficiency_score
  exact clamp01 _

theorem governance_score_bounds (p : Profile) :
    0 ≤ calculate_governance_score p ∧ calculate_governance_score p ≤ 100 := by
  unfold calculate_governance_score
  exact clamp01 _

theorem innovation_score_bounds (p : Profile) :
    0 ≤ calculate_innovation_score p ∧ calculate_innovation_score p ≤ 100 := by
  unfold calculate_innovation_score
  exact clamp01 _

theorem transparency_score_bounds (p : Profile) :
    0 ≤ calculate_transparency_score p ∧ calculate_transparency_score p ≤ 100 := by
  unfold calculate_transparency_score
  exact clamp01 _

theorem lookup_mem_snd {α β : Type} [BEq α] {l : List (α × β)} {k : α} {v : β}
    (h : l.lookup k = some v) : v ∈ l.map Prod.snd := by
  induction l with
  | nil => simp [List.lookup] at h
  | cons a t ih =>
    obtain ⟨a1, a2⟩ := a
    simp only [List.lookup] at h
    cases hk : (k == a1) with
    | true =>
      rw [hk] at h
      simp only [Option.some.injEq] at h
      subst h
      exact List.mem_cons_self _ _
    | false =>
      rw [hk] at h
      exact List.mem_cons_of_mem _ (ih h)

/-- The eleven profiles that getProfile can return. -/
def all_profiles : List Profile := crypto_profiles.map Prod.snd ++ [default_profile]

theorem getProfile_mem (crypto_id : String) : getProfile crypto_id ∈ all_profiles := by
  unfold getProfile all_profiles
  cases h : crypto_profiles.lookup (pyLower crypto_id) with
  | none => simp
  | some p =>
    simp only [Option.getD_some]
    exact List.mem_append_left _ (lookup_mem_snd h)

theorem lastN_map (f : ℚ → ℚ) (l : List ℚ) (n : Nat) :
    lastN (l.map f) n = (lastN l n).map f := by
  simp [lastN, List.length_map, List.map_drop]

theorem priceDeltas_length (prices : List (ℚ × ℚ)) :
    (priceDeltas prices).length = prices.length - 1 := by
  simp only [priceDeltas, List.length_zipWith, List.length_tail, List.length_map]
  omega

theorem priceDeltas_nonpos {prices : List (ℚ × ℚ)}
    (h : List.Chain' (fun a b : ℚ × ℚ => b.2 ≤ a.2) prices) :
    ∀ c ∈ priceDeltas prices, c ≤ 0 := by
  have h2 : List.Chain' (fun a b : ℚ => b ≤ a) (prices.map Prod.snd) :=
    (List.chain'_map _).2 h
  simp only [priceDeltas]
  generalize prices.map Prod.snd = vs at h2 ⊢
  induction vs with
  | nil => simp
  | cons v t ih =>
    cases t with
    | nil => simp
    | cons w r =>
      rw [List.chain'_cons] at h2
      intro c hc
      simp only [List.tail_cons, List.zipWith_cons_cons] at hc
      rcases List.mem_cons.1 hc with rfl | hc2
      · linarith [h2.1]
      · exact ih h2.2 c hc2

/-! ## Claim theorems -/

set_option maxHeartbeats 1000000 in
/-- Claim C2: for every volatility, market-cap rank, sustainability score and
    risk tier, _calculate_position_size equals the tier base multiplied, in
    order, by the volatility factor, the rank factor and the sustainability
    factor, capped at the tier maximum; at Conservative, volatility 10,
    rank 3, sustainability 85 the result is 8.58. -/
theorem position_size_formula :
    (∀ (v : ℚ) (r : ℤ) (s : ℚ) (tier : RiskTier),
      calculate_position_size v r s tier = position_size_spec v r s tier)
    ∧ calculate_position_size 10 3 85 .Conservative = 8.58 := by
  constructor
  · intro v r s tier
    simp only [calculate_position_size, position_size_spec, volatility_factor,
      rank_factor, sustainability_factor]
    split_ifs <;> congr 1 <;> ring
  · simp only [calculate_position_size, base_allocation, max_allocation]
    norm_num

/-- Claim C9: the momentum computation returns 0 on a missing series, on a
    series of fewer than 2 points and on a zero first price, and otherwise
    returns (last - first)/first * 100; doubling series give exactly 100. -/
theorem momentum_properties :
    get_price_momentum none = 0
    ∧ (∀ prices : List (ℚ × ℚ), prices.length < 2 →
        get_price_momentum (some prices) = 0)
    ∧ (∀ prices : List (ℚ × ℚ), (prices.getD 0 (0, 0)).2 = 0 →
        get_price_momentum (some prices) = 0)
    ∧ (∀ prices : List (ℚ × ℚ), 2 ≤ prices.length → (prices.getD 0 (0, 0)).2 ≠ 0 →
        get_price_momentum (some prices) =
          ((prices.getLastD (0, 0)).2 - (prices.getD 0 (0, 0)).2) /
            (prices.getD 0 (0, 0)).2 * 100)
    ∧ (∀ prices : List (ℚ × ℚ), 2 ≤ prices.length → (prices.getD 0 (0, 0)).2 ≠ 0 →
        (prices.getLastD (0, 0)).2 = 2 * (prices.getD 0 (0, 0)).2 →
        get_price_momentum (some prices) = 100) := by
  have main : ∀ prices : List (ℚ × ℚ), 2 ≤ prices.length →
      (prices.getD 0 (0, 0)).2 ≠ 0 →
      get_price_momentum (some prices) =
        ((prices.getLastD (0, 0)).2 - (prices.getD 0 (0, 0)).2) /
          (prices.getD 0 (0, 0)).2 * 100 := by
    intro prices h2 hne
    simp only [get_price_momentum]
    rw [if_neg (by omega), if_neg hne]
  refine ⟨rfl, ?_, ?_, main, ?_⟩
  · intro prices h
    simp only [get_price_momentum]
    rw [if_pos h]
  · intro prices h
    simp only [get_price_momentum]
    split_ifs <;> simp_all
  · intro prices h2 hne hl
    rw [main prices h2 hne, hl]
    set a := (prices.getD 0 (0, 0)).2 with ha
    field_simp
    ring

/-- Witness for momentum_properties at concrete inputs. -/
theorem momentum_properties_witness :
    get_price_momentum (some [(0, 3), (1, 6)]) = 100
    ∧ get_price_momentum (some [(0, 7)]) = 0
    ∧ get_price_momentum (some [(0, 0), (1, 6)]) = 0 :=
  ⟨momentum_properties.2.2.2.2 [(0, 3), (1, 6)] (by norm_num) (by norm_num) (by norm_num),
   momentum_properties.2.1 [(0, 7)] (by norm_num),
   momentum_properties.2.2.1 [(0, 0), (1, 6)] (by norm_num)⟩

/-- Claim C6: process_query classifies every query by a single first-match
    scan in the fixed priority order comparison, investment, portfolio,
    sustainability, price/technical, general; in particular any query
    containing a comparison keyword selects the comparison handler. -/
theorem query_routing_priority :
    (∀ (hc hp hs hpa hg f : String → String) (query : String),
      process_query hc hp hs hpa hg f query =
        match intentOf query with
        | .comparison => hc query
        | .investment => handle_investment_query f query
        | .portfolioAlloc => hp query
        | .sustainability => hs query
        | .priceAnalysis => hpa query
        | .general => hg query)
    ∧ (∀ query : String, containsAny (pyLower query) comparison_keywords = true →
        intentOf query = .comparison)
    ∧ (∀ query : String, containsAny (pyLower query) comparison_keywords = false →
        containsAny (pyLower query) investment_keywords = true →
        intentOf query = .investment)
    ∧ (∀ query : String, containsAny (pyLower query) comparison_keywords = false →
        containsAny (pyLower query) investment_keywords = false →
        containsAny (pyLower query) portfolio_keywords = true →
        intentOf query = .portfolioAlloc)
    ∧ (∀ query : String, containsAny (pyLower query) comparison_keywords = false →
        containsAny (pyLower query) investment_keywords = false →
        containsAny (pyLower query) portfolio_keywords = false →
        containsAny (pyLower query) sustainability_keywords = true →
        intentOf query = .sustainability)
    ∧ (∀ query : String, containsAny (pyLower query) comparison_keywords = false →
        containsAny (pyLower query) investment_keywords = false →
        containsAny (pyLower query) portfolio_keywords = false →
        containsAny (pyLower query) sustainability_keywords = false →
        containsAny (pyLower query) price_keywords = true →
        intentOf query = .priceAnalysis)
    ∧ (∀ query : String, containsAny (pyLower query) comparison_keywords = false →
        containsAny (pyLower query) investment_keywords = false →
        containsAny (pyLower query) portfolio_keywords = false →
        containsAny (pyLower query) sustainability_keywords = false →
        containsAny (pyLower query) price_keywords = false →
        intentOf query = .general)
    ∧ intentOf "Compare Bitcoin vs Ethereum" = .comparison := by
  refine ⟨?_, ?_, ?_, ?_, ?_, ?_, ?_, by decide⟩
  · intro hc hp hs hpa hg f query
    simp only [process_query, intentOf]
    split_ifs <;> rfl
  all_goals intro query
  all_goals intros
  all_goals simp [intentOf, *]

/-- Witness: a query holding both a comparison keyword and later-category
    keywords still routes to comparison; an investment-keyword query with no
    comparison keyword routes to investment. -/
theorem query_routing_priority_witness :
    containsAny (pyLower "Compare Bitcoin vs Ethereum price trends") comparison_keywords = true
    ∧ intentOf "Compare Bitcoin vs Ethereum price trends" = .comparison
    ∧ containsAny (pyLower "Should I buy Solana?") comparison_keywords = false
    ∧ containsAny (pyLower "Should I buy Solana?") investment_keywords = true
    ∧ intentOf "Should I buy Solana?" = .investment :=
  ⟨by decide,
   query_routing_priority.2.1 "Compare Bitcoin vs Ethereum price trends" (by decide),
   by decide, by decide,
   query_routing_priority.2.2.1 "Should I buy Solana?" (by decide) (by decide)⟩

/-- Claim C4 counterexample: on the exact query of the claim the substring
    scan matches the aliases dogecoin and doge inside Dogecoin2, the alias
    resolves, and process_query returns the investment-analysis response,
    not the could-not-find message. -/
theorem dogecoin2_query_counterexample :
    process_query (fun _ => "") (fun _ => "") (fun _ => "") (fun _ => "") (fun _ => "")
        (fun _ => "") "Should I invest in Dogecoin2?"
      = "## 💰 Investment Analysis for Dogecoin\n\n"
    ∧ process_query (fun _ => "") (fun _ => "") (fun _ => "") (fun _ => "") (fun _ => "")
        (fun _ => "") "Should I invest in Dogecoin2?" ≠ could_not_find_msg "dogecoin"
    ∧ process_query (fun _ => "") (fun _ => "") (fun _ => "") (fun _ => "") (fun _ => "")
        (fun _ => "") "Should I invest in Dogecoin2?" ≠ could_not_find_msg "doge"
    ∧ extract_crypto_names "Should I invest in Dogecoin2?" = ["dogecoin", "doge"] :=
  ⟨by decide, by decide, by decide, by decide⟩

/-- Claim C4 (amended): an investment query whose text matches no alias gets
    the please-specify usage hint; every alias the scanner can extract
    resolves in _get_crypto_id, so the could-not-find branch is unreachable,
    and a query with at least one alias match yields the investment-analysis
    response for the first match. -/
theorem investment_query_messages :
    (∀ (f : String → String) (query : String), extract_crypto_names query = [] →
      handle_investment_query f query = please_specify_msg)
    ∧ (∀ query crypto_name : String, crypto_name ∈ extract_crypto_names query →
        (get_crypto_id crypto_name).isSome = true)
    ∧ (∀ (f : String → String) (query crypto_name : String) (rest : List String),
        extract_crypto_names query = crypto_name :: rest →
        handle_investment_query f query =
          "## 💰 Investment Analysis for " ++ pyTitle crypto_name ++ "\n\n" ++
            f ((get_crypto_id crypto_name).getD "")) := by
  have hres : ∀ query crypto_name : String, crypto_name ∈ extract_crypto_names query →
      (get_crypto_id crypto_name).isSome = true := by
    intro query crypto_name hmem
    unfold extract_crypto_names at hmem
    obtain ⟨p, hp, rfl⟩ := List.mem_map.1 hmem
    have hpmem : p ∈ crypto_mappings := List.mem_of_mem_filter hp
    fin_cases hpmem <;> decide
  refine ⟨?_, hres, ?_⟩
  · intro f query hempty
    unfold handle_investment_query
    rw [hempty]
  · intro f query crypto_name rest hcons
    have h1 : crypto_name ∈ extract_crypto_names query := by
      rw [hcons]; exact List.mem_cons_self _ _
    obtain ⟨cid, hcid⟩ := Option.isSome_iff_exists.1 (hres query crypto_name h1)
    simp only [handle_investment_query, hcons, hcid, Option.getD_some]

/-- Witness for investment_query_messages at concrete inputs. -/
theorem investment_query_messages_witness :
    (extract_crypto_names "hello there" = []
      ∧ handle_investment_query (fun _ => "") "hello there" = please_specify_msg)
    ∧ ("dogecoin" ∈ extract_crypto_names "Should I invest in Dogecoin2?"
      ∧ (get_crypto_id "dogecoin").isSome = true)
    ∧ handle_investment_query (fun _ => "ANALYSIS") "Should I invest in Dogecoin2?" =
        "## 💰 Investment Analysis for " ++ pyTitle "dogecoin" ++ "\n\n" ++
          (fun _ => "ANALYSIS") ((get_crypto_id "dogecoin").getD "") :=
  ⟨⟨by decide, investment_query_messages.1 (fun _ => "") "hello there" (by decide)⟩,
   ⟨by decide, investment_query_messages.2.1 "Should I invest in Dogecoin2?" "dogecoin" (by decide)⟩,
   investment_query_messages.2.2 (fun _ => "ANALYSIS") "Should I invest in Dogecoin2?"
     "dogecoin" ["doge"] (by decide)⟩

set_option maxHeartbeats 2000000 in
/-- On each of the eleven reachable profiles every clamped sub-score is an
    integer, so rounding to one decimal is the identity and the rounded total
    equals the weighted sum of the rounded sub-scores. -/
theorem weighted_total_of_mem (p : Profile) (hp : p ∈ all_profiles) :
    round1 (calculate_energy_efficiency_score p * 0.40 + calculate_governance_score p * 0.30 +
        calculate_innovation_score p * 0.20 + calculate_transparency_score p * 0.10)
    = 0.40 * round1 (calculate_energy_efficiency_score p)
      + 0.30 * round1 (calculate_governance_score p)
      + 0.20 * round1 (calculate_innovation_score p)
      + 0.10 * round1 (calculate_transparency_score p) := by
  simp only [all_profiles, crypto_profiles, List.map_cons, List.map_nil, List.append_nil,
    List.cons_append, List.nil_append, List.mem_cons, List.mem_singleton,
    List.not_mem_nil, or_false] at hp
  rcases hp with rfl | rfl | rfl | rfl | rfl | rfl | rfl | rfl | rfl | rfl | rfl <;>
    simp [calculate_energy_efficiency_score, calculate_governance_score,
      calculate_innovation_score, calculate_transparency_score, energy_scores,
      governance_scores, initiative_scores, transparency_scores,
      renewable_energy_scores, innovation_base_scores, bitcoin_profile,
      ethereum_profile, cardano_profile, polkadot_profile, solana_profile,
      chainlink_profile, litecoin_profile, dogecoin_profile, algorand_profile,
      matic_network_profile, default_profile] <;>
    norm_num [round1, pyRound, min_def, max_def]

/-- Claim C1: for every asset identifier (unknown ones resolve to the default
    profile) the four returned sub-scores lie in [0, 100] and the returned
    total_score equals 0.40 E + 0.30 G + 0.20 I + 0.10 T over those returned
    sub-scores; in particular this covers all 10 built-in profile ids. -/
theorem sustainability_score_weighted_sum (crypto_id : String) :
    (0 ≤ (calculate_sustainability_score crypto_id).energy_efficiency
      ∧ (calculate_sustainability_score crypto_id).energy_efficiency ≤ 100)
    ∧ (0 ≤ (calculate_sustainability_score crypto_id).governance
      ∧ (calculate_sustainability_score crypto_id).governance ≤ 100)
    ∧ (0 ≤ (calculate_sustainability_score crypto_id).innovation
      ∧ (calculate_sustainability_score crypto_id).innovation ≤ 100)
    ∧ (0 ≤ (calculate_sustainability_score crypto_id).transparency
      ∧ (calculate_sustainability_score crypto_id).transparency ≤ 100)
    ∧ (calculate_sustainability_score crypto_id).total_score =
        0.40 * (calculate_sustainability_score crypto_id).energy_efficiency
        + 0.30 * (calculate_sustainability_score crypto_id).governance
        + 0.20 * (calculate_sustainability_score crypto_id).innovation
        + 0.10 * (calculate_sustainability_score crypto_id).transparency := by
  have hmem := getProfile_mem crypto_id
  simp only [calculate_sustainability_score]
  exact ⟨⟨round1_nonneg (energy_score_bounds _).1, round1_le_100 (energy_score_bounds _).2⟩,
    ⟨round1_nonneg (governance_score_bounds _).1, round1_le_100 (governance_score_bounds _).2⟩,
    ⟨round1_nonneg (innovation_score_bounds _).1, round1_le_100 (innovation_score_bounds _).2⟩,
    ⟨round1_nonneg (transparency_score_bounds _).1,
      round1_le_100 (transparency_score_bounds _).2⟩,
    weighted_total_of_mem _ hmem⟩

/-- Claim C5 (amended): a monotonically non-increasing series of at least
    period+1 points whose last period steps contain at least one strict price
    drop has RSI below 50 (the average gain is 0, making the RSI exactly 0);
    without a strict drop in that window the average loss is 0 and the source
    returns 100 instead, see the counterexample. -/
theorem rsi_nonincreasing_lt_50 (prices : List (ℚ × ℚ)) (period : Nat)
    (hlen : period + 1 ≤ prices.length)
    (hmono : List.Chain' (fun a b : ℚ × ℚ => b.2 ≤ a.2) prices)
    (hdrop : ∃ c ∈ lastN (priceDeltas prices) period, c < 0) :
    calculate_rsi prices period < 50 := by
  obtain ⟨c0, hc0mem, hc0neg⟩ := hdrop
  have hdlen : (priceDeltas prices).length = prices.length - 1 := priceDeltas_length prices
  have hglen : (rsiGains (priceDeltas prices)).length = prices.length - 1 := by
    simp [rsiGains, hdlen]
  have hwinlen : (lastN (priceDeltas prices) period).length = period := by
    simp only [lastN, List.length_drop, hdlen]
    omega
  have hperiod_pos : 0 < period := by
    have h := List.length_pos.2 (List.ne_nil_of_mem hc0mem)
    rwa [hwinlen] at h
  have hgain0 : mean (lastN (rsiGains (priceDeltas prices)) period) = 0 := by
    rw [rsiGains, lastN_map]
    have hz : ∀ x ∈ (lastN (priceDeltas prices) period).map (fun c => if 0 < c then c else 0),
        x = 0 := by
      intro x hx
      obtain ⟨c, hc, rfl⟩ := List.mem_map.1 hx
      have hcle : c ≤ 0 := priceDeltas_nonpos hmono c (List.drop_subset _ _ hc)
      simp [not_lt.2 hcle]
    rw [mean, List.sum_eq_zero hz, zero_div]
  have hlosspos : 0 < mean (lastN (rsiLosses (priceDeltas prices)) period) := by
    rw [rsiLosses, lastN_map]
    have hmem2 : |c0| ∈ (lastN (priceDeltas prices) period).map
        (fun c => if 0 < c then 0 else |c|) := by
      refine List.mem_map.2 ⟨c0, hc0mem, ?_⟩
      simp [not_lt.2 (le_of_lt hc0neg)]
    have hnn : ∀ x ∈ (lastN (priceDeltas prices) period).map
        (fun c => if 0 < c then 0 else |c|), 0 ≤ x := by
      intro x hx
      obtain ⟨c, hc, rfl⟩ := List.mem_map.1 hx
      split_ifs <;> simp [abs_nonneg]
    have hsum := List.single_le_sum hnn _ hmem2
    have habs : 0 < |c0| := abs_pos.2 (ne_of_lt hc0neg)
    have hlen2 : ((lastN (priceDeltas prices) period).map
        (fun c => if 0 < c then 0 else |c|)).length = period := by
      simp [hwinlen]
    rw [mean, hlen2]
    exact div_pos (lt_of_lt_of_le habs hsum) (by exact_mod_cast hperiod_pos)
  simp only [calculate_rsi]
  rw [if_neg (by omega), if_neg (by omega), if_neg (ne_of_gt hlosspos), hgain0]
  norm_num

/-- Witness for rsi_nonincreasing_lt_50 on a strictly falling series. -/
theorem rsi_nonincreasing_lt_50_witness :
    14 + 1 ≤ falling_series.length
    ∧ List.Chain' (fun a b : ℚ × ℚ => b.2 ≤ a.2) falling_series
    ∧ calculate_rsi falling_series 14 < 50 := by
  refine ⟨by simp [falling_series], ?_, ?_⟩
  · simp [falling_series, List.chain'_cons]
    norm_num
  · refine rsi_nonincreasing_lt_50 falling_series 14 (by simp [falling_series]) ?_ ?_
    · simp [falling_series, List.chain'_cons]
      norm_num
    · refine ⟨-1, ?_, by norm_num⟩
      norm_num [falling_series, priceDeltas, lastN]

/-- Claim C5 counterexample: the fifteen-point constant series is
    monotonically non-increasing (each price at most its predecessor) with
    period+1 points, yet calculate_rsi returns 100 because the average loss
    is 0, not a value below 50. -/
theorem rsi_constant_counterexample :
    const_series.length = 15
    ∧ List.Chain' (fun a b : ℚ × ℚ => b.2 ≤ a.2) const_series
    ∧ calculate_rsi const_series 14 = 100
    ∧ ¬ calculate_rsi const_series 14 < 50 := by
  have hrsi : calculate_rsi const_series 14 = 100 := by
    norm_num [calculate_rsi, const_series, priceDeltas, rsiGains, rsiLosses, lastN, mean]
  refine ⟨by simp [const_series], ?_, hrsi, by rw [hrsi]; norm_num⟩
  simp [const_series, List.chain'_cons]

/-- Claim C7: calculate_rsi at period 14 agrees with the spec description
    (the second length guard of the source is dead code because the series
    already has at least period+1 points), and any series of at least 15
    points whose deltas are all gains yields 100. -/
theorem rsi_spec_and_all_gains :
    (∀ prices : List (ℚ × ℚ), calculate_rsi prices 14 = rsiSpec prices 14)
    ∧ (∀ prices : List (ℚ × ℚ), 14 + 1 ≤ prices.length →
        (∀ c ∈ priceDeltas prices, 0 < c) → calculate_rsi prices 14 = 100) := by
  constructor
  · intro prices
    by_cases h : prices.length < 14 + 1
    · simp only [calculate_rsi, rsiSpec]
      rw [if_pos h, if_pos h]
    · have hglen : (rsiGains (priceDeltas prices)).length = prices.length - 1 := by
        simp [rsiGains, priceDeltas_length]
      simp only [calculate_rsi, rsiSpec]
      rw [if_neg h, if_neg h, if_neg (by omega)]
  · intro prices hlen hpos
    have hloss0 : mean (lastN (rsiLosses (priceDeltas prices)) 14) = 0 := by
      rw [rsiLosses, lastN_map]
      have hz : ∀ x ∈ (lastN (priceDeltas prices) 14).map
          (fun c => if 0 < c then 0 else |c|), x = 0 := by
        intro x hx
        obtain ⟨c, hc, rfl⟩ := List.mem_map.1 hx
        have hcpos := hpos c (List.drop_subset _ _ hc)
        simp [hcpos]
      rw [mean, List.sum_eq_zero hz, zero_div]
    have hglen : (rsiGains (priceDeltas prices)).length = prices.length - 1 := by
      simp [rsiGains, priceDeltas_length]
    simp only [calculate_rsi]
    rw [if_neg (by omega), if_neg (by omega), if_pos hloss0]

/-- Witness for rsi_spec_and_all_gains on a strictly rising series. -/
theorem rsi_spec_and_all_gains_witness :
    14 + 1 ≤ rising_series.length ∧ calculate_rsi rising_series 14 = 100 :=
  ⟨by simp [rising_series],
   rsi_spec_and_all_gains.2 rising_series (by simp [rising_series])
     (by norm_num [rising_series, priceDeltas])⟩

/-- Claim C8: volatility is 0 below 2 points, 0 when every step was skipped
    because of a zero previous price, the population standard deviation of
    the period-over-period returns times 100 otherwise, and 0 on any
    constant-price series. -/
theorem volatility_properties :
    (∀ prices : List (ℚ × ℚ), prices.length < 2 → calculate_volatility prices = 0)
    ∧ (∀ prices : List (ℚ × ℚ), 2 ≤ prices.length → priceReturns prices = [] →
        calculate_volatility prices = 0)
    ∧ (∀ prices : List (ℚ × ℚ), 2 ≤ prices.length → priceReturns prices ≠ [] →
        calculate_volatility prices =
          Real.sqrt ((popVar (priceReturns prices) : ℚ) : ℝ) * 100)
    ∧ (∀ (prices : List (ℚ × ℚ)) (c : ℚ), (∀ x ∈ prices, x.2 = c) →
        calculate_volatility prices = 0) := by
  have h1 : ∀ prices : List (ℚ × ℚ), prices.length < 2 → calculate_volatility prices = 0 := by
    intro prices h
    simp only [calculate_volatility]
    rw [if_pos h]
  have h2 : ∀ prices : List (ℚ × ℚ), 2 ≤ prices.length → priceReturns prices = [] →
      calculate_volatility prices = 0 := by
    intro prices hl he
    simp only [calculate_volatility]
    rw [if_neg (by omega), if_pos he]
  have h3 : ∀ prices : List (ℚ × ℚ), 2 ≤ prices.length → priceReturns prices ≠ [] →
      calculate_volatility prices =
        Real.sqrt ((popVar (priceReturns prices) : ℚ) : ℝ) * 100 := by
    intro prices hl he
    simp only [calculate_volatility]
    rw [if_neg (by omega), if_neg he]
  refine ⟨h1, h2, h3, ?_⟩
  intro prices c hc
  by_cases hl : prices.length < 2
  · exact h1 prices hl
  · have hz : ∀ r ∈ priceReturns prices, r = 0 := by
      intro r hr
      simp only [priceReturns] at hr
      obtain ⟨⟨a, b⟩, hpq, rfl⟩ := List.mem_map.1 hr
      have hmemz := List.mem_of_mem_filter hpq
      obtain ⟨hp1, hp2⟩ := List.of_mem_zip hmemz
      have e1 : a.2 = c := hc _ hp1
      have e2 : b.2 = c := hc _ (List.tail_subset _ hp2)
      simp only
      rw [e1, e2, sub_self, zero_div]
    by_cases he : priceReturns prices = []
    · exact h2 prices (by omega) he
    · rw [h3 prices (by omega) he]
      have hm : mean (priceReturns prices) = 0 := by
        rw [mean, List.sum_eq_zero hz, zero_div]
      have hv : popVar (priceReturns prices) = 0 := by
        rw [popVar]
        have hz2 : ∀ x ∈ (priceReturns prices).map
            (fun x => (x - mean (priceReturns prices)) ^ 2), x = 0 := by
          intro x hx
          obtain ⟨r, hrm, rfl⟩ := List.mem_map.1 hx
          rw [hz r hrm, hm]
          norm_num
        rw [mean, List.sum_eq_zero hz2, zero_div]
      rw [hv]
      simp

/-- Witness for volatility_properties at concrete inputs. -/
theorem volatility_properties_witness :
    calculate_volatility [] = 0
    ∧ calculate_volatility [(0, 0), (1, 6)] = 0
    ∧ calculate_volatility [(0, 5), (1, 5), (2, 5)] = 0
    ∧ calculate_volatility [(0, 1), (1, 2)] =
        Real.sqrt ((popVar (priceReturns [(0, 1), (1, 2)]) : ℚ) : ℝ) * 100 :=
  ⟨volatility_properties.1 [] (by simp),
   volatility_properties.2.1 [(0, 0), (1, 6)] (by simp) (by norm_num [priceReturns]),
   volatility_properties.2.2.2 [(0, 5), (1, 5), (2, 5)] 5 (by norm_num),
   volatility_properties.2.2.1 [(0, 1), (1, 2)] (by simp) (by norm_num [priceReturns])⟩

theorem build_portfolio_total_le (tier : RiskTier) (tops : List MarketRecord) :
    totalAlloc (build_portfolio_list tier tops) ≤ attainable_total tier := by
  cases tier <;>
    cases hbtc : tops.find? (fun c => pyLower c.symbol == "btc") <;>
    cases heth : tops.find? (fun c => pyLower c.symbol == "eth") <;>
      simp [build_portfolio_list, totalAlloc, attainable_total, growth_cryptos,
        speculative_cryptos, hbtc, heth, List.filter_cons, decide_eq_true_eq] <;>
      norm_num

theorem attainable_le_cap (tier : RiskTier) :
    attainable_total tier ≤ max_crypto_allocation tier := by
  cases tier <;> norm_num [attainable_total, max_crypto_allocation]

/-- Claim C3: the allocations of every returned portfolio sum to at most the
    tier cap (Conservative 70, Moderate 80, Aggressive 90); and whenever a
    pre-cap total exceeds the cap, the final block replaces every allocation
    by round(allocation * cap/total), with no correction of the rounded
    sum afterwards. -/
theorem portfolio_total_capped :
    (∀ (tier : RiskTier) (tops : List MarketRecord),
      totalAlloc (generate_portfolio_recommendation tops tier) ≤ max_crypto_allocation tier)
    ∧ (∀ (tier : RiskTier) (entries : List AllocEntry),
        max_crypto_allocation tier < totalAlloc entries →
        applyCap tier entries = entries.map (fun e =>
          { e with allocation :=
              (pyRound (e.allocation * (max_crypto_allocation tier / totalAlloc entries)) : ℚ) })) := by
  constructor
  · intro tier tops
    simp only [generate_portfolio_recommendation]
    split_ifs with h
    · cases tier <;> norm_num [totalAlloc, max_crypto_allocation]
    · have hb := build_portfolio_total_le tier tops
      have hc := attainable_le_cap tier
      simp only [applyCap]
      rw [if_neg (by push_neg; linarith)]
      linarith
  · intro tier entries h
    simp only [applyCap]
    rw [if_pos h]

/-- Witness for portfolio_total_capped: a two-entry list totalling 110 against
    the Conservative cap 70 is scaled entrywise and rounded. -/
theorem portfolio_total_capped_witness :
    max_crypto_allocation .Conservative <
      totalAlloc [⟨"a", 50, "r"⟩, ⟨"b", 60, "r"⟩]
    ∧ applyCap .Conservative [⟨"a", 50, "r"⟩, ⟨"b", 60, "r"⟩]
        = [⟨"a", 32, "r"⟩, ⟨"b", 38, "r"⟩] := by
  have h : max_crypto_allocation .Conservative <
      totalAlloc [⟨"a", 50, "r"⟩, ⟨"b", 60, "r"⟩] := by
    norm_num [max_crypto_allocation, totalAlloc]
  refine ⟨h, ?_⟩
  rw [portfolio_total_capped.2 .Conservative _ h]
  have hf1 : Int.fract ((350 : ℚ)/11) = 9/11 := by
    rw [Int.fract]
    norm_num
  have hf2 : Int.fract ((420 : ℚ)/11) = 2/11 := by
    rw [Int.fract]
    norm_num
  norm_num [totalAlloc, max_crypto_allocation, pyRound, hf1, hf2]

/-- Claim C10: the pre-cap totals reach at most 70 / 80 / 35 by tier
    (Aggressive portfolios hold no Bitcoin or Ethereum entry), the first two
    bounds are attained and the Aggressive total is always exactly 35, so the
    proportional-scaling branch is unreachable and on any non-empty provider
    list the returned allocations are exactly the assembled fixed-table
    entries. -/
theorem portfolio_precap_bounds :
    (∀ (tier : RiskTier) (tops : List MarketRecord),
      totalAlloc (build_portfolio_list tier tops) ≤ attainable_total tier)
    ∧ (∀ (tier : RiskTier) (tops : List MarketRecord), tops ≠ [] →
        generate_portfolio_recommendation tops tier = build_portfolio_list tier tops)
    ∧ (∃ tops : List MarketRecord, totalAlloc (build_portfolio_list .Conservative tops) = 70)
    ∧ (∃ tops : List MarketRecord, totalAlloc (build_portfolio_list .Moderate tops) = 80)
    ∧ (∀ tops : List MarketRecord, totalAlloc (build_portfolio_list .Aggressive tops) = 35) := by
  have hfind1 : ([⟨"btc"⟩, ⟨"eth"⟩] : List MarketRecord).find?
      (fun c => pyLower c.symbol == "btc") = some ⟨"btc"⟩ := by decide
  have hfind2 : ([⟨"btc"⟩, ⟨"eth"⟩] : List MarketRecord).find?
      (fun c => pyLower c.symbol == "eth") = some ⟨"eth"⟩ := by decide
  refine ⟨build_portfolio_total_le, ?_, ⟨[⟨"btc"⟩, ⟨"eth"⟩], ?_⟩, ⟨[⟨"btc"⟩, ⟨"eth"⟩], ?_⟩, ?_⟩
  · intro tier tops hne
    simp only [generate_portfolio_recommendation]
    rw [if_neg hne]
    have hb := build_portfolio_total_le tier tops
    have hc := attainable_le_cap tier
    simp only [applyCap]
    rw [if_neg (by push_neg; linarith)]
  · simp [build_portfolio_list, totalAlloc, hfind1, hfind2]
    norm_num
  · simp [build_portfolio_list, totalAlloc, hfind1, hfind2, growth_cryptos,
      List.filter_cons, decide_eq_true_eq]
    norm_num
  · intro tops
    simp [build_portfolio_list, totalAlloc, growth_cryptos, speculative_cryptos,
      List.filter_cons, decide_eq_true_eq]
    norm_num

/-- Witness for portfolio_precap_bounds: a non-empty provider list is returned
    uncapped. -/
theorem portfolio_precap_bounds_witness :
    generate_portfolio_recommendation [⟨"btc"⟩] .Aggressive
      = build_portfolio_list .Aggressive [⟨"btc"⟩] :=
  portfolio_precap_bounds.2.1 .Aggressive [⟨"btc"⟩] (by simp)

end CryptoAdvisor
